import Mathlib

/-!
Verification of the OpenAPI parameter handler
(`w3af/core/data/parsers/doc/open_api/parameters.py`).

The module is shallowly embedded: Python dictionaries become association
lists over a recursive value type `Val`, Python `None` becomes the value
`Val.vNone`, and exceptions (KeyError, TypeError, ValueError,
NotImplementedError, ...) become an `Except Err` error monad.  The
recursive resolver family is defined with an explicit fuel argument; a
run that exhausts its fuel yields the distinguished error `Err.fuelOut`
(the Python analogue being a RecursionError on a cyclic specification).
-/

/-- Exceptions that can propagate out of the embedded Python code. -/
inductive Err where
  | keyError
  | typeError
  | attrError
  | valueError
  | notImplementedError
  | derefError
  | fuelOut
deriving DecidableEq, Repr

/-- Python values as used by the parameter handler: scalars, the two fixed
datetime literals from DEFAULT_VALUES_BY_TYPE, lists, dictionaries
(association lists, iterated in insertion order) and the opaque payload
produced by the external file-fill heuristic. `vNone` is Python `None`;
`vFloat42` is the float literal `4.2` (the only float in the unit, never
computed with, so it is kept opaque). -/
inductive Val where
  | vNone
  | vInt (n : Int)
  | vStr (s : String)
  | vBool (b : Bool)
  | vFloat42
  | vDate (y m d : Nat)
  | vDateTime (y mo d h mi s : Nat)
  | vFile (fieldName fileName : String)
  | vList (xs : List Val)
  | vDict (entries : List (String × Val))

/-- A Python dictionary: an association list keyed by strings. -/
abbrev Dict := List (String × Val)

/-- Python `d.get(k, None)` on a dictionary: first binding of `k`, or `None`. -/
def dget (d : Dict) (k : String) : Val :=
  match d with
  | [] => .vNone
  | (k', v) :: rest => if k' = k then v else dget rest k

/-- Python `k in d` on a dictionary. -/
def dmem (k : String) (d : Dict) : Bool :=
  match d with
  | [] => false
  | (k', _) :: rest => k' = k || dmem k rest

/-- Python `d[k] = v`: replace the binding of `k` in place, or append it. -/
def dset : Dict → String → Val → Dict
  | [], k, v => [(k, v)]
  | (k₀, v₀) :: rest, k, v =>
      if k₀ = k then (k, v) :: rest else (k₀, v₀) :: dset rest k v

/-- Python `del d[k]`: drop the binding of `k`. -/
def ddel : Dict → String → Dict
  | [], _ => []
  | (k₀, v₀) :: rest, k =>
      if k₀ = k then ddel rest k else (k₀, v₀) :: ddel rest k

/-- Overlay every binding of `src` onto `acc` (`for k, v in src: acc[k] = v`). -/
def dsetAll (acc : Dict) (src : Dict) : Dict :=
  src.foldl (fun a kv => dset a kv.1 kv.2) acc

/-- No key occurs twice (true of every real Python dictionary). -/
def nodupKeys (d : Dict) : Bool :=
  match d with
  | [] => true
  | (k, _) :: rest => rest.all (fun kv => kv.1 ≠ k) && nodupKeys rest

/-- Python `v is None`. -/
def isNone (v : Val) : Bool :=
  match v with
  | .vNone => true
  | _ => false

/-- Python `v == s` for a string literal `s` (equality between a value of
any type and a string is `False` unless the value is that string). -/
def valEqStr (v : Val) (s : String) : Bool :=
  match v with
  | .vStr t => t = s
  | _ => false

/-- Python `v in l` for a list `l` of string literals. -/
def valInStrList (v : Val) (l : List String) : Bool :=
  l.any (fun s => valEqStr v s)

/-- Python truthiness (`if v:`). -/
def pyTruthy (v : Val) : Bool :=
  match v with
  | .vNone => false
  | .vInt n => n ≠ 0
  | .vStr s => s ≠ ""
  | .vBool b => b
  | .vFloat42 => true
  | .vDate _ _ _ => true
  | .vDateTime _ _ _ _ _ _ => true
  | .vFile _ _ => true
  | .vList xs => !xs.isEmpty
  | .vDict d => !d.isEmpty

/-- Python `k in v` for a string `k`: key membership on a dictionary,
substring test on a string, element membership on a list (only string
elements can compare equal to `k`), TypeError otherwise. -/
def pyIn (k : String) (v : Val) : Except Err Bool :=
  match v with
  | .vDict d => .ok (dmem k d)
  | .vStr s => .ok ((k.isPrefixOf s) || (s.splitOn k).length > 1)
  | .vList xs => .ok (xs.any (fun x => valEqStr x k))
  | _ => .error .typeError

/-- Python `v[k]` for a string key: dictionary lookup raising KeyError on a
missing key; TypeError on values that do not take string subscripts. -/
def pyGetItem (v : Val) (k : String) : Except Err Val :=
  match v with
  | .vDict d => if dmem k d then .ok (dget d k) else .error .keyError
  | _ => .error .typeError

/-- Python `v.get(k, None)`: only dictionaries have `.get`; anything else
raises AttributeError. -/
def pyGet (v : Val) (k : String) : Except Err Val :=
  match v with
  | .vDict d => .ok (dget d k)
  | _ => .error .attrError

/-- Python `v[0]` as used on a truthy enum: first element of a list, first
character of a string, TypeError otherwise. -/
def pyIndex0 (v : Val) : Except Err Val :=
  match v with
  | .vList (x :: _) => .ok x
  | .vList [] => .error .valueError
  | .vStr s =>
      match s.data with
      | c :: _ => .ok (.vStr (String.mk [c]))
      | [] => .error .valueError
  | _ => .error .typeError

/-- Python iteration `for x in v`: the elements of a list, the characters
of a string, the keys of a dictionary, TypeError otherwise. -/
def pyIterList (v : Val) : Except Err (List Val) :=
  match v with
  | .vList xs => .ok xs
  | .vStr s => .ok (s.data.map (fun c => .vStr (String.mk [c])))
  | .vDict d => .ok (d.map (fun kv => .vStr kv.1))
  | _ => .error .typeError

/-- Python 2 `str.isdigit`: non-empty and all characters are decimal digits. -/
def pyIsDigit (s : String) : Bool :=
  s ≠ "" && s.data.all Char.isDigit

/-!
External collaborators.  The string/file-fill heuristics and the parsed
specification object live outside this unit (`w3af.core.data.fuzzer.
form_filler` and the bravado-core spec object respectively).
-/

/-- Modelled from the spec: the external string-fill heuristic
`smart_fill` of `w3af.core.data.fuzzer.form_filler` (not under `src/`):
"Given a field name, returns a plausible human-readable value ...
treated as a black box returning a non-null string for any input."
The returned string is made to depend on the field name so that theorems
can observe which name the heuristic was handed. -/
def smart_fill (parameter_name : Val) : Val :=
  .vStr (String.append "filled-" (match parameter_name with
    | .vStr s => s
    | _ => "unknown"))

/-- Modelled from the spec: the external file-fill heuristic
`smart_fill_file` of `w3af.core.data.fuzzer.form_filler` (not under
`src/`): "Returns a plausible binary payload plus filename for
file-typed parameters." -/
def smart_fill_file (parameter_name : Val) (file_name : String) : Val :=
  .vFile (match parameter_name with
    | .vStr s => s
    | _ => "unknown") file_name

/-- The dereferencing environment of the external specification object:
a finite map from `$ref` pointer strings to their target schema nodes. -/
abbrev SpecEnv := List (String × Val)

/-- Modelled from the spec: `spec.deref` of the external bravado-core
Specification collaborator (not under `src/`): "Must resolve standard
pointer syntax to a concrete schema fragment; behavior on a dangling
pointer is outside this core's scope (propagates whatever failure the
collaborator raises)."  The argument is the `{'$ref': pointer}`
dictionary built at the call sites in `_get_object_definition_impl`. -/
def specDeref (H : SpecEnv) (refDict : Val) : Except Err Val :=
  match refDict with
  | .vDict d =>
      match dget d "$ref" with
      | .vStr pointer =>
          match H.find? (fun kv => kv.1 = pointer) with
          | some kv => .ok kv.2
          | none => .error .derefError
      | _ => .error .derefError
  | _ => .error .derefError

/-!
The `ParameterHandler` class constants and the non-recursive helpers
(`parameters.py`, lines 37-44 and 248-312).
-/

/-- `ParameterHandler.DEFAULT_VALUES_BY_TYPE` (lines 37-44). -/
def DEFAULT_VALUES_BY_TYPE : Dict :=
  [("int64", .vInt 42),
   ("int32", .vInt 42),
   ("integer", .vInt 42),
   ("float", .vFloat42),
   ("double", .vFloat42),
   ("date", .vDate 2017 6 30),
   ("date-time", .vDateTime 2017 6 30 23 59 45),
   ("boolean", .vBool true)]

/-- Python `DEFAULT_VALUES_BY_TYPE.get(parameter_type, None)`.  The table
is keyed by strings only, so every hashable non-string key misses; an
unhashable key (list/dict) raises TypeError. -/
def defaultValueFor (parameter_type : Val) : Except Err Val :=
  match parameter_type with
  | .vStr s => .ok (dget DEFAULT_VALUES_BY_TYPE s)
  | .vList _ => .error .typeError
  | .vDict _ => .error .typeError
  | _ => .ok .vNone

/-- The first 53-bit draw of a CPython Mersenne-Twister generator seeded
with the constant 1, as an exact dyadic rational: `random.Random()`
followed by `seed(1)` makes the first `random()` call return exactly
`mtFirstDraw53 / 2^53 = 0.13436424411240122`. -/
def mtFirstDraw53 : Nat := 1210245519433057

/-- Python 2 `random.Random(); r.seed(1); r.randint(a, b)` (lines
278-281): `randint(a, b)` is `randrange(a, b + 1)`, which for a positive
width returns `a + int(random() * width)` and raises ValueError on an
empty range.  Since the generator is reseeded with 1 on every
invocation, the single consumed draw is always `mtFirstDraw53 / 2^53`;
the float product is modelled by the exact floor `(mtFirstDraw53 *
width) / 2^53` (the two agree unless the product falls within one float
ulp of an integer, which does not happen for the widths exercised
here). -/
def seededRandint (a b : Int) : Except Err Val :=
  let width : Int := b + 1 - a
  if 0 < width then
    .ok (.vInt (a + ((mtFirstDraw53 * width.toNat / 2 ^ 53 : Nat) : Int)))
  else
    .error .valueError

/-- Python 2 `int(v)` as applied to a `minimum`/`maximum` bound inside
`randrange`: an integer converts to itself, anything else is outside the
model (floats are not modelled; strings raise ValueError in Python 2). -/
def boundToInt (v : Val) : Except Err Int :=
  match v with
  | .vInt n => .ok n
  | _ => .error .valueError

/-- `ParameterHandler._get_parameter_type` (lines 295-312): `format` if
the key is present, else `type`, else `None` (via try/except KeyError;
subscripting a non-dictionary raises TypeError instead). -/
def getParameterType (param_spec : Val) : Except Err Val :=
  match param_spec with
  | .vDict d =>
      .ok (if dmem "format" d then dget d "format"
           else if dmem "type" d then dget d "type"
           else .vNone)
  | _ => .error .typeError

/-- The bounded-numeric type-tag test of line 262:
`parameter_type in ('integer', 'float', 'double', 'int32', 'int64')`. -/
def isNumericTag (parameter_type : Val) : Bool :=
  valInStrList parameter_type ["integer", "float", "double", "int32", "int64"]

/-- `ParameterHandler._get_param_value_for_type_and_spec` (lines
248-293): enum first, then the seeded bounded-numeric draw, then the
fixed type→default table, then the string and file heuristics, else
`None`. -/
def getParamValueForTypeAndSpec (parameter_type : Val) (parameter_spec : Val) :
    Except Err Val :=
  match parameter_spec with
  | .vDict d =>
      -- parameter_name = parameter_spec.get('name', None)
      let parameter_name := dget d "name"
      -- if 'enum' in parameter_spec: if parameter_spec['enum']: return [0]
      if dmem "enum" d && pyTruthy (dget d "enum") then
        pyIndex0 (dget d "enum")
      else if isNumericTag parameter_type then
        -- _max/_min = the declared bounds if their keys are present
        let maxv := if dmem "maximum" d then dget d "maximum" else .vNone
        let minv := if dmem "minimum" d then dget d "minimum" else .vNone
        -- only do something if max or min are set
        if !isNone maxv || !isNone minv then
          let maxv := if isNone maxv then .vInt 56 else maxv
          let minv := if isNone minv then .vInt 0 else minv
          match boundToInt minv with
          | .error e => .error e
          | .ok lo =>
              match boundToInt maxv with
              | .error e => .error e
              | .ok hi => seededRandint lo hi
        else
          afterBounds parameter_type parameter_name
      else
        afterBounds parameter_type parameter_name
  | _ => .error .attrError
where
  /-- Lines 283-293: the default-table lookup and the string/file
  delegation shared by the non-numeric and unbounded-numeric paths. -/
  afterBounds (parameter_type parameter_name : Val) : Except Err Val :=
    match defaultValueFor parameter_type with
    | .error e => .error e
    | .ok default_value =>
        if !isNone default_value then .ok default_value
        else if valEqStr parameter_type "string" then
          .ok (smart_fill (if isNone parameter_name then .vStr "unknown"
                           else parameter_name))
        else if valEqStr parameter_type "file" then
          .ok (smart_fill_file (if isNone parameter_name then .vStr "unknown"
                                else parameter_name) "cat.png")
        else
          .ok .vNone

/-!
The Operation/Parameter data model.  The classes themselves belong to
bravado-core (external to `src/`); their shape is modelled from the
spec's data model section.
-/

/-- Modelled from the spec: a bravado-core Param (not under `src/`):
"Parameter: attributes — name (string), required (bool), default
(optional literal), paramSpec (a SchemaNode), and fill (optional
resolved value, initially unset/None)."  `default` and `fill` hold
`Val.vNone` when unset. -/
structure Parameter where
  name : String
  required : Bool
  default : Val
  param_spec : Dict
  fill : Val

/-- Modelled from the spec: a bravado-core Operation (not under `src/`):
"a named REST action owning a mapping from parameter name →
Parameter." -/
structure Operation where
  params : List (String × Parameter)

/-!
The Spec Repairer (`parameters.py`, lines 87-198).  Each pass iterates
over `self.operation.params` and rewrites `parameter.param_spec` in
place; the in-place mutation is modelled by returning the rewritten
Operation.
-/

/-- The body of the `_fix_string_format` loop (lines 120-126) for one
parameter: delete `format` when both `format` and `type` equal
`"string"`. -/
def fixStringFormatParam (p : Parameter) : Parameter :=
  let param_format := dget p.param_spec "format"
  let param_type := dget p.param_spec "type"
  if valEqStr param_format "string" && valEqStr param_type "string" then
    { p with param_spec := ddel p.param_spec "format" }
  else p

/-- `ParameterHandler._fix_string_format` (lines 101-126). -/
def fixStringFormat (op : Operation) : Operation :=
  { op with params := op.params.map (fun np => (np.1, fixStringFormatParam np.2)) }

/-- `invalid_formats` of line 150. -/
def invalid_formats : List String := ["int32", "int64", "float", "double", ""]

/-- The body of the `_fix_string_with_invalid_format` loop (lines
152-158) for one parameter: delete a numeric/empty `format` from a
string-typed parameter. -/
def fixStringWithInvalidFormatParam (p : Parameter) : Parameter :=
  let param_format := dget p.param_spec "format"
  let param_type := dget p.param_spec "type"
  if valInStrList param_format invalid_formats && valEqStr param_type "string" then
    { p with param_spec := ddel p.param_spec "format" }
  else p

/-- `ParameterHandler._fix_string_with_invalid_format` (lines 128-158). -/
def fixStringWithInvalidFormat (op : Operation) : Operation :=
  { op with
    params := op.params.map (fun np => (np.1, fixStringWithInvalidFormatParam np.2)) }

/-- `fix_formats` of line 182. -/
def fix_formats : List String := ["double", "float", "int32", "int64"]

/-- The body of the `_fix_bad_default_for_number_type` loop (lines
184-198) for one parameter: when `format` is numeric and the textual
`default` is not digit-only, overwrite `default` with the integer 0. -/
def fixBadDefaultForNumberTypeParam (p : Parameter) : Parameter :=
  let param_format := dget p.param_spec "format"
  let param_default := dget p.param_spec "default"
  if !(valInStrList param_format fix_formats) then p
  else
    match param_default with
    | .vStr s =>
        if pyIsDigit s then p
        else { p with param_spec := dset p.param_spec "default" (.vInt 0) }
    | _ => p

/-- `ParameterHandler._fix_bad_default_for_number_type` (lines 160-198). -/
def fixBadDefaultForNumberType (op : Operation) : Operation :=
  { op with
    params := op.params.map (fun np => (np.1, fixBadDefaultForNumberTypeParam np.2)) }

/-- `ParameterHandler._fix_common_spec_issues` (lines 87-99): the three
repair passes, in source order. -/
def fixCommonSpecIssues (op : Operation) : Operation :=
  fixBadDefaultForNumberType (fixStringWithInvalidFormat (fixStringFormat op))

/-- The three repair passes composed on a single parameter, in the order
`_fix_common_spec_issues` runs them. -/
def fixParam (p : Parameter) : Parameter :=
  fixBadDefaultForNumberTypeParam (fixStringWithInvalidFormatParam (fixStringFormatParam p))

/-!
The Value Resolver (`parameters.py`, lines 227-530).  The mutually
recursive family is indexed by fuel; every call consumes one unit, so
the recursion is structural.  `Err.fuelOut` plays the role of Python's
RecursionError on a cyclic specification; with enough fuel it never
occurs on the acyclic inputs the theorems consider.
-/

/-- The property-name injection of `_create_object` (lines 523-525):
`if 'name' not in property_data: property_data['name'] = property_name`.
Item assignment on a non-dictionary raises TypeError. -/
def injectName (property_name : String) (property_data : Val) : Except Err Val :=
  match pyIn "name" property_data with
  | .error e => .error e
  | .ok b =>
      if b then .ok property_data
      else
        match property_data with
        | .vDict d => .ok (.vDict (dset d "name" (.vStr property_name)))
        | _ => .error .typeError

mutual

/-- `ParameterHandler._get_param_value` (lines 227-246): descend into a
`schema` wrapper, try primitive resolution, try model resolution, and
fall back to the constant 42. -/
def getParamValue (H : SpecEnv) : Nat → Val → Except Err Val
  | 0, _ => .error .fuelOut
  | n + 1, param_spec₀ =>
      match pyIn "schema" param_spec₀ with
      | .error e => .error e
      | .ok hasSchema =>
          match (if hasSchema then pyGetItem param_spec₀ "schema"
                 else .ok param_spec₀) with
          | .error e => .error e
          | .ok param_spec =>
              match getParamValueForPrimitive H n param_spec with
              | .error e => .error e
              | .ok value =>
                  if !isNone value then .ok value
                  else
                    match getParamValueForModel H n param_spec with
                    | .error e => .error e
                    | .ok value₂ =>
                        if !isNone value₂ then .ok value₂
                        else .ok (.vInt 42)

/-- `ParameterHandler._get_param_value_for_primitive` (lines 314-340):
type-tag dispatch, then the array fallback, else `None`. -/
def getParamValueForPrimitive (H : SpecEnv) : Nat → Val → Except Err Val
  | 0, _ => .error .fuelOut
  | n + 1, param_spec =>
      match getParameterType param_spec with
      | .error e => .error e
      | .ok parameter_type =>
          if isNone parameter_type then .ok .vNone
          else
            match getParamValueForTypeAndSpec parameter_type param_spec with
            | .error e => .error e
            | .ok value =>
                if !isNone value then .ok value
                else
                  match getParamValueForArray H n param_spec with
                  | .error e => .error e
                  | .ok value₂ =>
                      if !isNone value₂ then .ok value₂
                      else .ok .vNone

/-- `ParameterHandler._get_param_value_for_array` (lines 342-391):
`None` unless `type == 'array'`; `[]` for a missing/None `items`; the
verbatim `items` default, if present, as a singleton; otherwise the
recursively resolved `items` value as a singleton, or `[]` if that
resolution returned `None`. -/
def getParamValueForArray (H : SpecEnv) : Nat → Val → Except Err Val
  | 0, _ => .error .fuelOut
  | n + 1, param_spec =>
      match pyGet param_spec "type" with
      | .error e => .error e
      | .ok t =>
          if !valEqStr t "array" then .ok .vNone
          else
            match pyGet param_spec "items" with
            | .error e => .error e
            | .ok items =>
                if isNone items then .ok (.vList [])
                else
                  match pyIn "default" items with
                  | .error e => .error e
                  | .ok hasDefault =>
                      if hasDefault then
                        match pyGetItem items "default" with
                        | .error e => .error e
                        | .ok d => .ok (.vList [d])
                      else
                        match getParamValue H n items with
                        | .error e => .error e
                        | .ok value =>
                            if !isNone value then .ok (.vList [value])
                            else .ok (.vList [])

/-- `ParameterHandler._get_param_value_for_model` (lines 393-410):
dereference to an object definition, create the object, and raise
NotImplementedError if that produced `None` (`_get_object_definition`,
lines 412-423, is a one-line wrapper around
`_get_object_definition_impl` and is inlined here). -/
def getParamValueForModel (H : SpecEnv) : Nat → Val → Except Err Val
  | 0, _ => .error .fuelOut
  | n + 1, param_spec =>
      match getObjectDefinitionImpl H n param_spec with
      | .error e => .error e
      | .ok parameter_definition =>
          match createObject H n parameter_definition with
          | .error e => .error e
          | .ok created_object =>
              if !isNone created_object then .ok created_object
              else .error .notImplementedError

/-- `ParameterHandler._get_object_definition_impl` (lines 461-500):
resolve a `$ref`, merge an `allOf`, unwrap a `schema` (dereferencing its
`$ref` if present); the final `type == 'object'` block is a `pass` and
is omitted. -/
def getObjectDefinitionImpl (H : SpecEnv) : Nat → Val → Except Err Val
  | 0, _ => .error .fuelOut
  | n + 1, param_spec₀ =>
      match pyIn "$ref" param_spec₀ with
      | .error e => .error e
      | .ok hasRef =>
          match ((if hasRef then
                   match pyGetItem param_spec₀ "$ref" with
                   | .error e => .error e
                   | .ok r => specDeref H (.vDict [("$ref", r)])
                 else .ok param_spec₀) : Except Err Val) with
          | .error e => .error e
          | .ok param_spec₁ =>
              match pyIn "allOf" param_spec₁ with
              | .error e => .error e
              | .ok hasAllOf =>
                  match ((if hasAllOf then
                           match pyGetItem param_spec₁ "allOf" with
                           | .error e => .error e
                           | .ok allParts =>
                               match pyIterList allParts with
                               | .error e => .error e
                               | .ok parts => mergeLoop H n parts [] []
                         else .ok param_spec₁) : Except Err Val) with
                  | .error e => .error e
                  | .ok param_spec₂ =>
                      match pyIn "schema" param_spec₂ with
                      | .error e => .error e
                      | .ok hasSchema =>
                          if hasSchema then
                            match pyGetItem param_spec₂ "schema" with
                            | .error e => .error e
                            | .ok schemaVal =>
                                match pyIn "$ref" schemaVal with
                                | .error e => .error e
                                | .ok hasRef₂ =>
                                    if hasRef₂ then
                                      match pyGetItem schemaVal "$ref" with
                                      | .error e => .error e
                                      | .ok r₂ => specDeref H (.vDict [("$ref", r₂)])
                                    else .ok schemaVal
                          else .ok param_spec₂

/-- The loop of `ParameterHandler._merge_all_parts` (lines 444-459),
threading the accumulated `required` list and `properties` dictionary of
the `merged` object definition. -/
def mergeLoop (H : SpecEnv) :
    Nat → List Val → List Val → Dict → Except Err Val
  | _, [], requiredAcc, propsAcc =>
      .ok (.vDict [("required", .vList requiredAcc),
                   ("properties", .vDict propsAcc),
                   ("type", .vStr "object")])
  | 0, _ :: _, _, _ => .error .fuelOut
  | n + 1, part :: rest, requiredAcc, propsAcc =>
      match getObjectDefinitionImpl H n part with
      | .error e => .error e
      | .ok object_definition =>
          match pyIn "required" object_definition with
          | .error e => .error e
          | .ok hasRequired =>
              match ((if hasRequired then
                       match pyGetItem object_definition "required" with
                       | .error e => .error e
                       | .ok rv =>
                           match pyIterList rv with
                           | .error e => .error e
                           | .ok names => .ok (requiredAcc ++ names)
                     else .ok requiredAcc) : Except Err (List Val)) with
              | .error e => .error e
              | .ok requiredAcc' =>
                  match pyIn "properties" object_definition with
                  | .error e => .error e
                  | .ok hasProps =>
                      match ((if hasProps then
                               match pyGetItem object_definition "properties" with
                               | .error e => .error e
                               | .ok pv =>
                                   match pv with
                                   | .vDict pd => .ok (dsetAll propsAcc pd)
                                   | _ => .error .attrError
                             else .ok propsAcc) : Except Err Dict) with
                      | .error e => .error e
                      | .ok propsAcc' => mergeLoop H n rest requiredAcc' propsAcc'

/-- `ParameterHandler._create_object` (lines 502-530): `{}` unless the
definition's `type` is `'object'`; otherwise resolve every declared
property (injecting the property name into its schema) into a result
dictionary.  A definition of type `'object'` without a `properties` key
raises KeyError at line 521. -/
def createObject (H : SpecEnv) : Nat → Val → Except Err Val
  | 0, _ => .error .fuelOut
  | n + 1, param_spec =>
      match pyGet param_spec "type" with
      | .error e => .error e
      | .ok t =>
          if !valEqStr t "object" then .ok (.vDict [])
          else
            match pyGetItem param_spec "properties" with
            | .error e => .error e
            | .ok props =>
                match props with
                | .vDict pd => createObjectLoop H n pd []
                | _ => .error .attrError

/-- The property loop of `_create_object` (lines 521-528), threading the
accumulated `created_object` dictionary. -/
def createObjectLoop (H : SpecEnv) :
    Nat → List (String × Val) → Dict → Except Err Val
  | _, [], created_object => .ok (.vDict created_object)
  | 0, _ :: _, _ => .error .fuelOut
  | n + 1, (property_name, property_data) :: rest, created_object =>
      match injectName property_name property_data with
      | .error e => .error e
      | .ok property_data' =>
          match getParamValue H n property_data' with
          | .error e => .error e
          | .ok value =>
              createObjectLoop H n rest (dset created_object property_name value)

end

/-- `ParameterHandler._get_object_definition` (lines 412-423): a
one-line wrapper around `_get_object_definition_impl`. -/
def getObjectDefinition (H : SpecEnv) (fuel : Nat) (param_spec : Val) :
    Except Err Val :=
  getObjectDefinitionImpl H fuel param_spec

/-- `ParameterHandler._merge_all_parts` (lines 425-459): start from the
empty merged object definition and fold every part in. -/
def mergeAllParts (H : SpecEnv) (fuel : Nat) (all_parts : List Val) :
    Except Err Val :=
  mergeLoop H fuel all_parts [] []

/-!
The entry point (`parameters.py`, lines 55-85 and 200-225).
-/

/-- `ParameterHandler._set_param_value` (lines 200-225): use the static
default when present, otherwise store the resolved value; returns the
(possibly) updated parameter together with the boolean result. -/
def setParamValue (H : SpecEnv) (fuel : Nat) (parameter : Parameter) :
    Except Err (Parameter × Bool) :=
  if !isNone parameter.default then
    .ok ({ parameter with fill := parameter.default }, true)
  else
    match getParamValue H fuel (.vDict parameter.param_spec) with
    | .error e => .error e
    | .ok value =>
        if !isNone value then .ok ({ parameter with fill := value }, true)
        else .ok (parameter, false)

/-- The parameter loop of `set_operation_params` (lines 66-73): reset
every fill slot to `None`, skip non-required parameters unless
`optional` is set, and otherwise run `_set_param_value` (whose boolean
result the caller discards). -/
def setOperationParamsLoop (H : SpecEnv) (fuel : Nat) (optional : Bool) :
    List (String × Parameter) → Except Err (List (String × Parameter))
  | [] => .ok []
  | (parameter_name, parameter) :: rest =>
      let parameter := { parameter with fill := Val.vNone }
      if !parameter.required && !optional then
        match setOperationParamsLoop H fuel optional rest with
        | .error e => .error e
        | .ok rest' => .ok ((parameter_name, parameter) :: rest')
      else
        match setParamValue H fuel parameter with
        | .error e => .error e
        | .ok (parameter', _) =>
            match setOperationParamsLoop H fuel optional rest with
            | .error e => .error e
            | .ok rest' => .ok ((parameter_name, parameter') :: rest')

/-- `ParameterHandler.set_operation_params` (lines 55-75): repair
`self.operation` in place, deep-copy it, fill the copy's parameters and
return the copy.  The result pair is `(self.operation after the call,
the returned operation)`: the first component records the in-place
mutation of the caller-supplied operation, the second is the deep copy
handed back (deep copy is the identity on immutable Lean values). -/
def set_operation_params (H : SpecEnv) (fuel : Nat) (selfOperation : Operation)
    (optional : Bool) : Except Err (Operation × Operation) :=
  let selfOperation' := fixCommonSpecIssues selfOperation
  let operation := selfOperation'
  match setOperationParamsLoop H fuel optional operation.params with
  | .error e => .error e
  | .ok params' => .ok (selfOperation', { operation with params := params' })

/-- `ParameterHandler.operation_has_optional_params` (lines 77-85). -/
def operationHasOptionalParams (op : Operation) : Bool :=
  op.params.any (fun np => !np.2.required)

/-!
Statement-side definitions used by the theorems below.
-/

/-- A part of an `allOf` that is already a concrete definition: a
dictionary with no `$ref`/`allOf`/`schema` indirection, whose `required`
entry (if any) is a list and whose `properties` entry (if any) is a
duplicate-free dictionary.  On such a part
`_get_object_definition_impl` is the identity. -/
def isPlainPart (p : Val) : Bool :=
  match p with
  | .vDict d =>
      !dmem "$ref" d && !dmem "allOf" d && !dmem "schema" d &&
      (match dget d "required" with
       | .vNone => !dmem "required" d
       | .vList _ => true
       | _ => false) &&
      (match dget d "properties" with
       | .vNone => !dmem "properties" d
       | .vDict pd => nodupKeys pd
       | _ => false)
  | _ => false

/-- The `required` names a part contributes to an `allOf` merge. -/
def reqNamesOf (p : Val) : List Val :=
  match p with
  | .vDict d =>
      match dget d "required" with
      | .vList xs => xs
      | _ => []
  | _ => []

/-- The `properties` dictionary a part contributes to an `allOf` merge. -/
def propsOf (p : Val) : Dict :=
  match p with
  | .vDict d =>
      match dget d "properties" with
      | .vDict pd => pd
      | _ => []
  | _ => []

/-!
Association-list (Python dictionary) algebra.
-/

theorem dget_of_dmem_false {d : Dict} {k : String} (h : dmem k d = false) :
    dget d k = .vNone := by
  induction d with
  | nil => rfl
  | cons kv rest ih =>
      obtain ⟨k', v⟩ := kv
      simp only [dmem, Bool.or_eq_false_iff, decide_eq_false_iff_not] at h
      simp only [dget, if_neg h.1, ih h.2]


theorem dget_dset_self (d : Dict) (k : String) (v : Val) :
    dget (dset d k v) k = v := by
  induction d with
  | nil => simp [dset, dget]
  | cons kv rest ih =>
      obtain ⟨k₀, v₀⟩ := kv
      by_cases hk : k₀ = k
      · simp [dset, hk, dget]
      · simp only [dset, if_neg hk, dget, if_neg hk, ih]

theorem dget_dset_ne (d : Dict) {k k' : String} (v : Val) (h : k' ≠ k) :
    dget (dset d k v) k' = dget d k' := by
  induction d with
  | nil => simp [dset, dget, if_neg (fun hh => h (Eq.symm hh))]
  | cons kv rest ih =>
      obtain ⟨k₀, v₀⟩ := kv
      by_cases hk : k₀ = k
      · simp only [dset, if_pos hk, dget, if_neg (fun hh => h (Eq.symm hh))]
        rw [hk, if_neg (fun hh : k = k' => h (Eq.symm hh))]
      · simp only [dset, if_neg hk, dget, ih]

theorem dmem_dset (d : Dict) (k k' : String) (v : Val) :
    dmem k' (dset d k v) = (k = k' || dmem k' d) := by
  induction d with
  | nil => simp [dset, dmem]
  | cons kv rest ih =>
      obtain ⟨k₀, v₀⟩ := kv
      by_cases hk : k₀ = k
      · simp only [dset, if_pos hk, dmem, hk]
        by_cases hkk : k = k'
        · simp [hkk]
        · simp [hkk]
      · simp only [dset, if_neg hk, dmem, ih]
        by_cases hk₀ : k₀ = k'
        · simp [hk₀]
        · by_cases hkk : k = k'
          · simp [hkk]
          · simp [hkk, hk₀]

theorem dmem_ddel_self (d : Dict) (k : String) : dmem k (ddel d k) = false := by
  induction d with
  | nil => rfl
  | cons kv rest ih =>
      obtain ⟨k₀, v₀⟩ := kv
      by_cases hk : k₀ = k
      · simpa [ddel, hk] using ih
      · simpa [ddel, dmem, hk] using ih

theorem dget_ddel_self (d : Dict) (k : String) : dget (ddel d k) k = .vNone :=
  dget_of_dmem_false (dmem_ddel_self d k)

theorem dget_ddel_ne (d : Dict) {k k' : String} (h : k' ≠ k) :
    dget (ddel d k) k' = dget d k' := by
  induction d with
  | nil => rfl
  | cons kv rest ih =>
      obtain ⟨k₀, v₀⟩ := kv
      by_cases hk : k₀ = k
      · have hne : ¬(k₀ = k') := fun hh => h (hh ▸ hk ▸ rfl)
        simp only [ddel, if_pos hk, dget, if_neg hne, ih]
      · simp only [ddel, if_neg hk, dget]
        by_cases hk' : k₀ = k'
        · simp [hk']
        · simp only [if_neg hk', ih]

theorem dmem_ddel_ne (d : Dict) {k k' : String} (h : k' ≠ k) :
    dmem k' (ddel d k) = dmem k' d := by
  induction d with
  | nil => rfl
  | cons kv rest ih =>
      obtain ⟨k₀, v₀⟩ := kv
      by_cases hk : k₀ = k
      · have hne : ¬(k₀ = k') := fun hh => h (hh ▸ hk ▸ rfl)
        simp [ddel, if_pos hk, dmem, hne, ih]
      · simp [ddel, if_neg hk, dmem, ih]

theorem ne_of_dmem_all_ne {d : Dict} {k k₁ : String}
    (hmem : dmem k d = true)
    (hall : d.all (fun kv => kv.1 ≠ k₁) = true) : ¬(k₁ = k) := by
  induction d with
  | nil => simp [dmem] at hmem
  | cons kv rest ih =>
      obtain ⟨k₀, v₀⟩ := kv
      simp only [List.all_cons, Bool.and_eq_true, decide_eq_true_eq] at hall
      simp only [dmem, Bool.or_eq_true, decide_eq_true_eq] at hmem
      rcases hmem with h | h
      · intro hkk
        exact hall.1 (by rw [h, hkk])
      · exact ih h hall.2

theorem dget_dsetAll (pd : Dict) (acc : Dict) (k : String)
    (hnd : nodupKeys pd = true) :
    dget (dsetAll acc pd) k = if dmem k pd then dget pd k else dget acc k := by
  induction pd generalizing acc with
  | nil => simp [dsetAll, dmem]
  | cons kv pd' ih =>
      obtain ⟨k₁, v₁⟩ := kv
      simp only [nodupKeys, Bool.and_eq_true] at hnd
      have step : dsetAll acc ((k₁, v₁) :: pd') = dsetAll (dset acc k₁ v₁) pd' := by
        simp [dsetAll]
      rw [step, ih (dset acc k₁ v₁) hnd.2]
      by_cases hmem : dmem k pd' = true
      · have hne : ¬(k₁ = k) := ne_of_dmem_all_ne hmem hnd.1
        have hmem2 : dmem k ((k₁, v₁) :: pd') = true := by
          simp [dmem, hmem]
        rw [if_pos hmem, if_pos hmem2]
        simp only [dget, if_neg hne]
      · have hmem' : dmem k pd' = false := by simpa using hmem
        rw [if_neg (by simp [hmem'])]
        by_cases hk₁ : k₁ = k
        · have hmem2 : dmem k ((k₁, v₁) :: pd') = true := by
            simp [dmem, hk₁]
          rw [if_pos hmem2, hk₁]
          simp only [dget, if_pos rfl]
          exact dget_dset_self acc k v₁
        · have hmem2 : dmem k ((k₁, v₁) :: pd') = false := by
            simp [dmem, hk₁, hmem']
          rw [if_neg (by simp [hmem2])]
          exact dget_dset_ne acc v₁ (fun hh => hk₁ (Eq.symm hh))

/-!
Behavior of the resolver: totality of `_get_param_value`.
-/

theorem getParamValue_ok_notNone {H : SpecEnv} {fuel : Nat} {ps v : Val}
    (h : getParamValue H fuel ps = Except.ok v) : isNone v = false := by
  cases fuel with
  | zero => simp [getParamValue] at h
  | succ n =>
      simp only [getParamValue] at h
      repeat' split at h
      all_goals
        first
        | (simp_all [isNone]; done)
        | (injection h with hv; subst hv; simp_all [isNone])

/-- C9: whenever `_get_param_value` returns normally (no exception),
its result is not `None`; consequently `_set_param_value` stores a
non-null fill value, returns True on every parameter it processes
without raising, and its `return False` branch is unreachable. -/
theorem C9_set_param_value_total :
    (∀ (H : SpecEnv) (fuel : Nat) (ps v : Val),
        getParamValue H fuel ps = Except.ok v → isNone v = false)
    ∧ (∀ (H : SpecEnv) (fuel : Nat) (p : Parameter) (r : Parameter × Bool),
        setParamValue H fuel p = Except.ok r →
          r.2 = true ∧ isNone r.1.fill = false) := by
  constructor
  · intro H fuel ps v h
    exact getParamValue_ok_notNone h
  · intro H fuel p r h
    unfold setParamValue at h
    split at h
    case isTrue hdef =>
        injection h with hr
        subst hr
        exact ⟨rfl, by simpa using hdef⟩
    case isFalse hdef =>
        split at h
        · exact absurd h (by simp)
        case h_2 value hval =>
            have hnn := getParamValue_ok_notNone hval
            rw [if_pos (by simp [hnn])] at h
            injection h with hr
            subst hr
            exact ⟨rfl, hnn⟩

/-- Witness for C9 at two concrete inputs: a boolean-typed schema
resolved through `_get_param_value`, and a parameter carrying a static
default pushed through `_set_param_value`. -/
theorem C9_set_param_value_total_witness :
    isNone (Val.vBool true) = false
    ∧ ((true : Bool) = true ∧
        isNone (Parameter.mk "p" true (Val.vInt 7) [] (Val.vInt 7)).fill = false) := by
  constructor
  · exact C9_set_param_value_total.1 [] 3 (.vDict [("type", .vStr "boolean")])
      (.vBool true) rfl
  · exact C9_set_param_value_total.2 [] 1
      (Parameter.mk "p" true (Val.vInt 7) [] Val.vNone)
      ((Parameter.mk "p" true (Val.vInt 7) [] (Val.vInt 7)), true) rfl

/-- C2 (amended): `_create_object` returns the empty dictionary whenever
the dereferenced definition's `type` is not `'object'`; but when `type`
is `'object'` and the definition carries no `properties` key, the code
raises KeyError at `param_spec['properties']` instead of returning an
empty mapping. -/
theorem C2_create_object_no_properties (H : SpecEnv) (n : Nat) (d : Dict) :
    (valEqStr (dget d "type") "object" = false →
        createObject H (n + 1) (.vDict d) = .ok (.vDict []))
    ∧ (valEqStr (dget d "type") "object" = true → dmem "properties" d = false →
        createObject H (n + 1) (.vDict d) = .error .keyError) := by
  constructor
  · intro ht
    simp [createObject, pyGet, ht]
  · intro ht hp
    simp [createObject, pyGet, pyGetItem, ht, hp]

/-- Witness for C2 (amended) at concrete inputs: a non-object definition
resolves to the empty dictionary, and an object definition without
`properties` raises KeyError. -/
theorem C2_create_object_no_properties_witness :
    createObject [] 5 (.vDict [("type", .vStr "x")]) = .ok (.vDict [])
    ∧ createObject [] 5 (.vDict [("type", .vStr "object")]) = .error .keyError :=
  ⟨(C2_create_object_no_properties [] 4 [("type", .vStr "x")]).1 rfl,
   (C2_create_object_no_properties [] 4 [("type", .vStr "object")]).2 rfl rfl⟩

/-- Counterexample for C2 as stated: on the object definition
`{'type': 'object'}` (no `properties` key) the code raises KeyError
rather than returning the empty keyed structure the claim promises. -/
theorem C2_create_object_no_properties_cex :
    createObject [] 5 (.vDict [("type", .vStr "object")]) = .error .keyError
    ∧ ¬(createObject [] 5 (.vDict [("type", .vStr "object")])
          = .ok (.vDict [])) := by
  refine ⟨rfl, fun h => ?_⟩
  rw [show createObject [] 5 (.vDict [("type", Val.vStr "object")])
        = Except.error Err.keyError from rfl] at h
  exact Except.noConfusion h

/-- C3 (amended): when primitive resolution yields `None`, the top-level
`_get_param_value` returns the (never-`None`) result of model/object
resolution; in particular a node that is neither a primitive (no
`type`/`format` tag) nor an object definition resolves to the empty
dictionary `{}`, not to the constant 42 — the `return 42` fallback at
the end of `_get_param_value` is unreachable because
`_get_param_value_for_model` never returns `None`. -/
theorem C3_neither_primitive_nor_object (H : SpecEnv) (n : Nat) (d : Dict)
    (hschema : dmem "schema" d = false)
    (hformat : dmem "format" d = false)
    (htype : dmem "type" d = false)
    (href : dmem "$ref" d = false)
    (hallof : dmem "allOf" d = false) :
    getParamValue H (n + 4) (.vDict d) = .ok (.vDict []) := by
  have htype' : dget d "type" = Val.vNone := dget_of_dmem_false htype
  simp [getParamValue, getParamValueForPrimitive, getParamValueForModel,
    getObjectDefinitionImpl, createObject, getParameterType, pyIn, pyGet,
    hschema, hformat, htype, href, hallof, htype', isNone, valEqStr]

/-- Witness for C3 (amended) at the concrete node `{'name': 'x'}`. -/
theorem C3_neither_primitive_nor_object_witness :
    getParamValue [] 6 (.vDict [("name", .vStr "x")]) = .ok (.vDict []) :=
  C3_neither_primitive_nor_object [] 2 [("name", .vStr "x")] rfl rfl rfl rfl rfl

/-- Counterexample for C3 as stated: resolving the empty schema node
`{}` — neither a primitive nor an object definition — yields the empty
dictionary, not the integer 42 the claim promises. -/
theorem C3_neither_primitive_nor_object_cex :
    getParamValue [] 10 (.vDict []) = .ok (.vDict [])
    ∧ ¬(getParamValue [] 10 (.vDict []) = .ok (.vInt 42)) := by
  refine ⟨rfl, fun h => ?_⟩
  rw [show getParamValue [] 10 (.vDict []) = Except.ok (Val.vDict []) from rfl] at h
  injection h with h'
  exact Val.noConfusion h'

/-- C10: during object resolution the property name is injected into a
property's nested schema only when that schema has no `name` key; a
pre-existing `name` entry is never overwritten, so the string/file
heuristics later receive the schema's own name rather than the
enclosing property key. -/
theorem C10_inject_name_only_when_absent (property_name : String) (d : Dict) :
    (dmem "name" d = true →
        injectName property_name (.vDict d) = .ok (.vDict d))
    ∧ (dmem "name" d = false →
        injectName property_name (.vDict d)
            = .ok (.vDict (dset d "name" (.vStr property_name)))
        ∧ dget (dset d "name" (.vStr property_name)) "name"
            = .vStr property_name) := by
  constructor
  · intro h
    simp [injectName, pyIn, h]
  · intro h
    exact ⟨by simp [injectName, pyIn, h],
           dget_dset_self d "name" (.vStr property_name)⟩

/-- Witness for C10 at concrete inputs: a schema that already carries
`name: 'n0'` is passed through unchanged, and one without a name gets
the enclosing property key appended. -/
theorem C10_inject_name_only_when_absent_witness :
    injectName "p" (.vDict [("name", .vStr "n0")])
        = .ok (.vDict [("name", .vStr "n0")])
    ∧ (injectName "q" (.vDict [("type", .vStr "string")])
          = .ok (.vDict [("type", .vStr "string"), ("name", .vStr "q")])
       ∧ dget (dset [("type", .vStr "string")] "name" (.vStr "q")) "name"
          = .vStr "q") :=
  ⟨(C10_inject_name_only_when_absent "p" [("name", .vStr "n0")]).1 rfl,
   (C10_inject_name_only_when_absent "q" [("type", .vStr "string")]).2 rfl⟩

/-- C7: for an array schema (`type == 'array'`): a missing/None `items`
resolves to `[]`; an `items` carrying a `default` resolves to the
one-element sequence holding that default verbatim; otherwise, when the
recursive resolution of `items` returns a value, the result is that
value as a one-element sequence; and every successful array resolution
is a sequence of length at most one. -/
theorem C7_array_resolution (H : SpecEnv) (n : Nat) (d : Dict)
    (htype : valEqStr (dget d "type") "array" = true) :
    (dget d "items" = Val.vNone →
        getParamValueForArray H (n + 1) (.vDict d) = .ok (.vList []))
    ∧ (∀ di : Dict, dget d "items" = .vDict di → dmem "default" di = true →
        getParamValueForArray H (n + 1) (.vDict d)
          = .ok (.vList [dget di "default"]))
    ∧ (∀ (di : Dict) (v : Val), dget d "items" = .vDict di →
        dmem "default" di = false →
        getParamValue H n (.vDict di) = Except.ok v →
        getParamValueForArray H (n + 1) (.vDict d) = .ok (.vList [v]))
    ∧ (∀ w : Val, getParamValueForArray H (n + 1) (.vDict d) = .ok w →
        ∃ xs : List Val, w = .vList xs ∧ xs.length ≤ 1) := by
  refine ⟨?_, ?_, ?_, ?_⟩
  · intro h
    simp [getParamValueForArray, pyGet, htype, h, isNone]
  · intro di hdi hdef
    simp [getParamValueForArray, pyGet, pyGetItem, pyIn, htype, hdi, hdef, isNone]
  · intro di v hdi hdef hv
    have hnn := getParamValue_ok_notNone hv
    simp [getParamValueForArray, pyGet, pyGetItem, pyIn, htype, hdi, hdef, hv,
      isNone]
    exact hnn
  · intro w hw
    simp only [getParamValueForArray] at hw
    repeat' split at hw
    all_goals
      first
      | (injection hw with h'; exact ⟨_, h'.symm, by simp⟩)
      | (exact Except.noConfusion hw)
      | simp_all [pyGet]

/-- Witness for C7 at concrete inputs: `{'type': 'array'}` resolves to
`[]`, `{'type': 'array', 'items': {'default': 'x'}}` to `['x']`, an
integer-typed `items` to `[42]`, and the length bound is instantiated on
the first of these. -/
theorem C7_array_resolution_witness :
    getParamValueForArray [] 4 (.vDict [("type", .vStr "array")]) = .ok (.vList [])
    ∧ getParamValueForArray [] 4
        (.vDict [("type", .vStr "array"), ("items", .vDict [("default", .vStr "x")])])
        = .ok (.vList [dget [("default", .vStr "x")] "default"])
    ∧ getParamValueForArray [] 4
        (.vDict [("type", .vStr "array"), ("items", .vDict [("type", .vStr "integer")])])
        = .ok (.vList [.vInt 42])
    ∧ ∃ xs : List Val, (Val.vList []) = .vList xs ∧ xs.length ≤ 1 :=
  ⟨(C7_array_resolution [] 3 [("type", .vStr "array")] rfl).1 rfl,
   (C7_array_resolution [] 3
      [("type", .vStr "array"), ("items", .vDict [("default", .vStr "x")])] rfl).2.1
      [("default", .vStr "x")] rfl rfl,
   (C7_array_resolution [] 3
      [("type", .vStr "array"), ("items", .vDict [("type", .vStr "integer")])] rfl).2.2.1
      [("type", .vStr "integer")] (.vInt 42) rfl rfl rfl,
   (C7_array_resolution [] 3 [("type", .vStr "array")] rfl).2.2.2
      (.vList []) ((C7_array_resolution [] 3 [("type", .vStr "array")] rfl).1 rfl)⟩

/-!
The repair pipeline decomposed per parameter.
-/

theorem fixCommonSpecIssues_eq_map (op : Operation) :
    fixCommonSpecIssues op
      = Operation.mk (op.params.map (fun np => (np.1, fixParam np.2))) := by
  simp only [fixCommonSpecIssues, fixBadDefaultForNumberType,
    fixStringWithInvalidFormat, fixStringFormat, fixParam, List.map_map]
  rfl

theorem valInStrList_invalid_formats {f : String} (hf : f ∈ invalid_formats) :
    valInStrList (Val.vStr f) invalid_formats = true := by
  simp only [invalid_formats, List.mem_cons, List.not_mem_nil, or_false] at hf
  rcases hf with rfl | rfl | rfl | rfl | rfl
  all_goals rfl

theorem valInStrList_fix_formats {f : String} (hf : f ∈ fix_formats) :
    valInStrList (Val.vStr f) fix_formats = true := by
  simp only [fix_formats, List.mem_cons, List.not_mem_nil, or_false] at hf
  rcases hf with rfl | rfl | rfl | rfl
  all_goals rfl

/-- C8: a string-typed parameter whose `format` is one of the
numeric/empty markers and whose textual `default` is not digit-only has
its `format` deleted but its `default` left unchanged by the full
three-pass repair pipeline: the invalid-format pass runs before the
bad-default pass, and the bad-default pass keys on the now-deleted
`format`, so string-typed parameters never get their default rewritten
to 0.  (The first conjunct shows `_fix_common_spec_issues` is exactly
the three per-parameter passes applied to every parameter.) -/
theorem C8_string_typed_default_survives :
    (∀ op : Operation, fixCommonSpecIssues op
        = Operation.mk (op.params.map (fun np => (np.1, fixParam np.2))))
    ∧ ∀ (p : Parameter) (f s : String),
        dget p.param_spec "type" = .vStr "string" →
        dget p.param_spec "format" = .vStr f →
        f ∈ invalid_formats →
        dget p.param_spec "default" = .vStr s →
        pyIsDigit s = false →
        dmem "format" (fixParam p).param_spec = false
        ∧ dget (fixParam p).param_spec "default" = .vStr s := by
  constructor
  · exact fixCommonSpecIssues_eq_map
  · intro p f s htype hfmt hf hdef hnd
    have hne : f ≠ "string" := by
      intro he
      subst he
      simp [invalid_formats] at hf
    have h1 : fixStringFormatParam p = p := by
      simp [fixStringFormatParam, hfmt, valEqStr, hne]
    have h2 : fixStringWithInvalidFormatParam p
        = { p with param_spec := ddel p.param_spec "format" } := by
      simp [fixStringWithInvalidFormatParam, hfmt, htype,
        valInStrList_invalid_formats hf, valEqStr]
    have hfmt2 : dget (ddel p.param_spec "format") "format" = Val.vNone :=
      dget_ddel_self _ _
    have h3 : fixBadDefaultForNumberTypeParam
          { p with param_spec := ddel p.param_spec "format" }
        = { p with param_spec := ddel p.param_spec "format" } := by
      simp [fixBadDefaultForNumberTypeParam, hfmt2, valInStrList, valEqStr,
        fix_formats]
    have hfp : fixParam p = { p with param_spec := ddel p.param_spec "format" } := by
      unfold fixParam
      rw [h1, h2, h3]
    rw [hfp]
    refine ⟨dmem_ddel_self _ _, ?_⟩
    rw [dget_ddel_ne p.param_spec (by decide : "default" ≠ "format")]
    exact hdef

/-- Witness for C8 at the concrete parameter
`{'type': 'string', 'format': 'int64', 'default': 'abc'}` inside a
one-parameter operation. -/
theorem C8_string_typed_default_survives_witness :
    fixCommonSpecIssues (Operation.mk [("p", Parameter.mk "p" true Val.vNone
        [("type", .vStr "string"), ("format", .vStr "int64"),
         ("default", .vStr "abc")] Val.vNone)])
      = Operation.mk ([("p", Parameter.mk "p" true Val.vNone
          [("type", .vStr "string"), ("format", .vStr "int64"),
           ("default", .vStr "abc")] Val.vNone)].map
            (fun np => (np.1, fixParam np.2)))
    ∧ (dmem "format" (fixParam (Parameter.mk "p" true Val.vNone
          [("type", .vStr "string"), ("format", .vStr "int64"),
           ("default", .vStr "abc")] Val.vNone)).param_spec = false
       ∧ dget (fixParam (Parameter.mk "p" true Val.vNone
            [("type", .vStr "string"), ("format", .vStr "int64"),
             ("default", .vStr "abc")] Val.vNone)).param_spec "default"
          = .vStr "abc") :=
  ⟨C8_string_typed_default_survives.1 _,
   C8_string_typed_default_survives.2
     (Parameter.mk "p" true Val.vNone
       [("type", .vStr "string"), ("format", .vStr "int64"),
        ("default", .vStr "abc")] Val.vNone)
     "int64" "abc" rfl rfl (by simp [invalid_formats]) rfl rfl⟩

/-- C4 (amended): provided the parameter's declared `type` is not the
string literal `'string'` (otherwise the invalid-format pass deletes
`format` first and the default survives, see the C8 theorem), a
numeric-format parameter with a textual non-digit-only default has its
default rewritten to the integer 0 by the repair pipeline, while a
digit-only textual default leaves the schema completely untouched.
(The first conjunct again ties the per-parameter composite to
`_fix_common_spec_issues`.) -/
theorem C4_bad_numeric_default_rewritten :
    (∀ op : Operation, fixCommonSpecIssues op
        = Operation.mk (op.params.map (fun np => (np.1, fixParam np.2))))
    ∧ ∀ (p : Parameter) (f s : String),
        valEqStr (dget p.param_spec "type") "string" = false →
        dget p.param_spec "format" = .vStr f →
        f ∈ fix_formats →
        dget p.param_spec "default" = .vStr s →
        (pyIsDigit s = false →
            (fixParam p).param_spec = dset p.param_spec "default" (.vInt 0)
            ∧ dget (fixParam p).param_spec "default" = .vInt 0)
        ∧ (pyIsDigit s = true → (fixParam p).param_spec = p.param_spec) := by
  constructor
  · exact fixCommonSpecIssues_eq_map
  · intro p f s htype hfmt hf hdef
    have h1 : fixStringFormatParam p = p := by
      simp [fixStringFormatParam, htype]
    have h2 : fixStringWithInvalidFormatParam p = p := by
      simp [fixStringWithInvalidFormatParam, htype]
    have hin : valInStrList (Val.vStr f) fix_formats = true :=
      valInStrList_fix_formats hf
    constructor
    · intro hnd
      have h3 : fixBadDefaultForNumberTypeParam p
          = { p with param_spec := dset p.param_spec "default" (.vInt 0) } := by
        simp [fixBadDefaultForNumberTypeParam, hfmt, hin, hdef, hnd]
      have hfp : fixParam p
          = { p with param_spec := dset p.param_spec "default" (.vInt 0) } := by
        unfold fixParam
        rw [h1, h2, h3]
      rw [hfp]
      exact ⟨rfl, dget_dset_self _ _ _⟩
    · intro hd
      have h3 : fixBadDefaultForNumberTypeParam p = p := by
        simp [fixBadDefaultForNumberTypeParam, hfmt, hin, hdef, hd]
      unfold fixParam
      rw [h1, h2, h3]

/-- Witness for C4 (amended) at two concrete parameters: an
integer-typed parameter with default `'-5'` is rewritten to 0, and one
with the digit-only default `'42'` is untouched. -/
theorem C4_bad_numeric_default_rewritten_witness :
    ((fixParam (Parameter.mk "q" true Val.vNone
        [("type", .vStr "integer"), ("format", .vStr "int64"),
         ("default", .vStr "-5")] Val.vNone)).param_spec
      = dset [("type", .vStr "integer"), ("format", .vStr "int64"),
              ("default", .vStr "-5")] "default" (.vInt 0)
     ∧ dget (fixParam (Parameter.mk "q" true Val.vNone
          [("type", .vStr "integer"), ("format", .vStr "int64"),
           ("default", .vStr "-5")] Val.vNone)).param_spec "default" = .vInt 0)
    ∧ (fixParam (Parameter.mk "r" true Val.vNone
        [("type", .vStr "integer"), ("format", .vStr "int64"),
         ("default", .vStr "42")] Val.vNone)).param_spec
      = [("type", .vStr "integer"), ("format", .vStr "int64"),
         ("default", .vStr "42")] :=
  ⟨(C4_bad_numeric_default_rewritten.2
      (Parameter.mk "q" true Val.vNone
        [("type", .vStr "integer"), ("format", .vStr "int64"),
         ("default", .vStr "-5")] Val.vNone)
      "int64" "-5" rfl rfl (by simp [fix_formats]) rfl).1 rfl,
   (C4_bad_numeric_default_rewritten.2
      (Parameter.mk "r" true Val.vNone
        [("type", .vStr "integer"), ("format", .vStr "int64"),
         ("default", .vStr "42")] Val.vNone)
      "int64" "42" rfl rfl (by simp [fix_formats]) rfl).2 rfl⟩

/-- Counterexample for C4 as stated: the parameter
`{'type': 'string', 'format': 'int64', 'default': 'abc'}` has a numeric
`format` and a textual non-digit-only `default`, yet running the full
Spec Repairer leaves its default `'abc'` instead of rewriting it to 0
(the invalid-format pass deletes `format` before the bad-default pass
looks at it). -/
theorem C4_bad_numeric_default_rewritten_cex :
    ((fixCommonSpecIssues (Operation.mk [("p", Parameter.mk "p" true Val.vNone
          [("type", .vStr "string"), ("format", .vStr "int64"),
           ("default", .vStr "abc")] Val.vNone)])).params.map
        (fun np => dget np.2.param_spec "default")) = [.vStr "abc"]
    ∧ ¬(((fixCommonSpecIssues (Operation.mk [("p", Parameter.mk "p" true Val.vNone
          [("type", .vStr "string"), ("format", .vStr "int64"),
           ("default", .vStr "abc")] Val.vNone)])).params.map
        (fun np => dget np.2.param_spec "default")) = [.vInt 0]) := by
  refine ⟨rfl, fun h => ?_⟩
  rw [show ((fixCommonSpecIssues (Operation.mk [("p", Parameter.mk "p" true Val.vNone
          [("type", Val.vStr "string"), ("format", Val.vStr "int64"),
           ("default", Val.vStr "abc")] Val.vNone)])).params.map
        (fun np => dget np.2.param_spec "default")) = [Val.vStr "abc"] from rfl] at h
  injection h with h1 h2
  exact Val.noConfusion h1

/-!
The seeded bounded-numeric draw.
-/

theorem if_dmem_dget (d : Dict) (k : String) :
    (if dmem k d then dget d k else Val.vNone) = dget d k := by
  by_cases h : dmem k d = true
  · rw [if_pos h]
  · have h' : dmem k d = false := by simpa using h
    rw [if_neg (by simp [h']), dget_of_dmem_false h']

theorem typeAndSpec_bounded_eval (d : Dict) (pt : Val) (lo hi : Int)
    (hpt : isNumericTag pt = true)
    (henum : dmem "enum" d = false)
    (hmin : (if isNone (dget d "minimum") then Val.vInt 0
             else dget d "minimum") = .vInt lo)
    (hmax : (if isNone (dget d "maximum") then Val.vInt 56
             else dget d "maximum") = .vInt hi)
    (hpresent : (!isNone (dget d "maximum") || !isNone (dget d "minimum")) = true)
    (hle : lo ≤ hi) :
    getParamValueForTypeAndSpec pt (.vDict d)
      = .ok (.vInt (lo +
          (((mtFirstDraw53 * (hi + 1 - lo).toNat) / 2 ^ 53 : Nat) : Int))) := by
  have hw : (0 : Int) < hi + 1 - lo := by omega
  simp only [getParamValueForTypeAndSpec, henum, Bool.false_and, Bool.false_eq_true,
    if_neg (by simp : ¬False), hpt, if_pos rfl, if_dmem_dget, hpresent, hmin, hmax,
    boundToInt, seededRandint, if_pos hw]
  simp

/-- C6: a bounded-numeric schema (tag `integer`/`float`/`double`/
`int32`/`int64`, no enum) declaring a minimum and/or maximum resolves to
an integer within `[minimum, maximum]` (0 substituted for a missing
minimum, 56 for a missing maximum) that depends only on that bounds
pair: since the generator is reseeded with the constant 1 on every
invocation, any schema and tag with the same effective bounds resolves
to the identical integer. -/
theorem C6_bounded_numeric_deterministic (d : Dict) (pt : Val) (lo hi : Int)
    (hpt : isNumericTag pt = true)
    (henum : dmem "enum" d = false)
    (hmin : (if isNone (dget d "minimum") then Val.vInt 0
             else dget d "minimum") = .vInt lo)
    (hmax : (if isNone (dget d "maximum") then Val.vInt 56
             else dget d "maximum") = .vInt hi)
    (hpresent : (!isNone (dget d "maximum") || !isNone (dget d "minimum")) = true)
    (hle : lo ≤ hi) :
    ∃ k : Int,
      getParamValueForTypeAndSpec pt (.vDict d) = .ok (.vInt k)
      ∧ lo ≤ k ∧ k ≤ hi
      ∧ ∀ (d' : Dict) (pt' : Val),
          isNumericTag pt' = true → dmem "enum" d' = false →
          (if isNone (dget d' "minimum") then Val.vInt 0
           else dget d' "minimum") = .vInt lo →
          (if isNone (dget d' "maximum") then Val.vInt 56
           else dget d' "maximum") = .vInt hi →
          (!isNone (dget d' "maximum") || !isNone (dget d' "minimum")) = true →
          getParamValueForTypeAndSpec pt' (.vDict d') = .ok (.vInt k) := by
  refine ⟨lo + ((mtFirstDraw53 * (hi + 1 - lo).toNat / 2 ^ 53 : Nat) : Int),
    typeAndSpec_bounded_eval d pt lo hi hpt henum hmin hmax hpresent hle,
    ?_, ?_, ?_⟩
  · have h0 : (0 : Int) ≤ ((mtFirstDraw53 * (hi + 1 - lo).toNat / 2 ^ 53 : Nat) : Int) :=
      Int.natCast_nonneg _
    omega
  · have hmtk : mtFirstDraw53 < 2 ^ 53 := by norm_num [mtFirstDraw53]
    have hwpos : 0 < (hi + 1 - lo).toNat := by omega
    have hq : mtFirstDraw53 * (hi + 1 - lo).toNat / 2 ^ 53 < (hi + 1 - lo).toNat :=
      Nat.div_lt_of_lt_mul (Nat.mul_lt_mul_of_pos_right hmtk hwpos)
    have hcast : (((hi + 1 - lo).toNat : Int)) = hi + 1 - lo :=
      Int.toNat_of_nonneg (by omega)
    have hq' : ((mtFirstDraw53 * (hi + 1 - lo).toNat / 2 ^ 53 : Nat) : Int)
        < ((hi + 1 - lo).toNat : Int) := by exact_mod_cast hq
    omega
  · intro d' pt' h1 h2 h3 h4 h5
    exact typeAndSpec_bounded_eval d' pt' lo hi h1 h2 h3 h4 h5 hle

/-- Witness for C6 at the spec's scenario `{'type': 'integer',
'minimum': 1, 'maximum': 3}`. -/
theorem C6_bounded_numeric_deterministic_witness :
    ∃ k : Int,
      getParamValueForTypeAndSpec (.vStr "integer")
          (.vDict [("type", .vStr "integer"), ("minimum", .vInt 1),
                   ("maximum", .vInt 3)]) = .ok (.vInt k)
      ∧ 1 ≤ k ∧ k ≤ 3
      ∧ ∀ (d' : Dict) (pt' : Val),
          isNumericTag pt' = true → dmem "enum" d' = false →
          (if isNone (dget d' "minimum") then Val.vInt 0
           else dget d' "minimum") = .vInt 1 →
          (if isNone (dget d' "maximum") then Val.vInt 56
           else dget d' "maximum") = .vInt 3 →
          (!isNone (dget d' "maximum") || !isNone (dget d' "minimum")) = true →
          getParamValueForTypeAndSpec pt' (.vDict d') = .ok (.vInt k) :=
  C6_bounded_numeric_deterministic
    [("type", .vStr "integer"), ("minimum", .vInt 1), ("maximum", .vInt 3)]
    (.vStr "integer") 1 3 rfl rfl rfl rfl rfl (by norm_num)

/-!
The `allOf` merge.
-/

theorem impl_plain_id (H : SpecEnv) (m : Nat) {p : Val}
    (hp : isPlainPart p = true) :
    getObjectDefinitionImpl H (m + 1) p = .ok p := by
  cases p with
  | vDict d =>
      simp only [isPlainPart, Bool.and_eq_true, Bool.not_eq_true'] at hp
      obtain ⟨⟨⟨⟨h1, h2⟩, h3⟩, _⟩, _⟩ := hp
      simp [getObjectDefinitionImpl, pyIn, h1, h2, h3]
  | vNone => simp [isPlainPart] at hp
  | vInt n => simp [isPlainPart] at hp
  | vStr s => simp [isPlainPart] at hp
  | vBool b => simp [isPlainPart] at hp
  | vFloat42 => simp [isPlainPart] at hp
  | vDate y mo dd => simp [isPlainPart] at hp
  | vDateTime y mo dd h mi s => simp [isPlainPart] at hp
  | vFile a b => simp [isPlainPart] at hp
  | vList xs => simp [isPlainPart] at hp

theorem plain_required_cases {d : Dict}
    (hp : isPlainPart (.vDict d) = true) :
    (dmem "required" d = false ∧ reqNamesOf (.vDict d) = [])
    ∨ (dget d "required" = .vList (reqNamesOf (.vDict d))) := by
  simp only [isPlainPart, Bool.and_eq_true, Bool.not_eq_true'] at hp
  obtain ⟨⟨_, hreq⟩, _⟩ := hp
  cases hr : dget d "required"
  case vNone =>
    rw [hr] at hreq
    simp only [Bool.not_eq_true'] at hreq
    exact Or.inl ⟨hreq, by simp [reqNamesOf, hr]⟩
  case vList xs =>
    exact Or.inr (by simp [reqNamesOf, hr])
  all_goals (rw [hr] at hreq; simp at hreq)

theorem plain_properties_cases {d : Dict}
    (hp : isPlainPart (.vDict d) = true) :
    (dmem "properties" d = false ∧ propsOf (.vDict d) = [])
    ∨ (dget d "properties" = .vDict (propsOf (.vDict d))
       ∧ nodupKeys (propsOf (.vDict d)) = true) := by
  simp only [isPlainPart, Bool.and_eq_true, Bool.not_eq_true'] at hp
  obtain ⟨_, hprops⟩ := hp
  cases hr : dget d "properties"
  case vNone =>
    rw [hr] at hprops
    simp only [Bool.not_eq_true'] at hprops
    exact Or.inl ⟨hprops, by simp [propsOf, hr]⟩
  case vDict pd =>
    rw [hr] at hprops
    simp only [] at hprops
    refine Or.inr ⟨by simp [propsOf, hr], ?_⟩
    simpa [propsOf, hr] using hprops
  all_goals (rw [hr] at hprops; simp at hprops)

theorem dmem_of_dget_not_none {d : Dict} {k : String}
    (h : ¬(dget d k = Val.vNone)) : dmem k d = true := by
  by_cases hm : dmem k d = true
  · exact hm
  · exact absurd (dget_of_dmem_false (by simpa using hm)) h

theorem mergeLoop_spec (H : SpecEnv) :
    ∀ (parts : List Val) (fuel : Nat) (req : List Val) (props : Dict) (md : Val),
    (∀ p ∈ parts, isPlainPart p = true) →
    mergeLoop H fuel parts req props = .ok md →
    md = .vDict [("required", .vList (req ++ parts.flatMap reqNamesOf)),
                 ("properties",
                  .vDict (parts.foldl (fun acc p => dsetAll acc (propsOf p)) props)),
                 ("type", .vStr "object")] := by
  intro parts
  induction parts with
  | nil =>
      intro fuel req props md hplain hok
      simp only [mergeLoop] at hok
      injection hok with h
      simp [← h]
  | cons p rest ih =>
      intro fuel req props md hplain hok
      have hp : isPlainPart p = true := hplain p (by simp)
      have hrest : ∀ q ∈ rest, isPlainPart q = true :=
        fun q hq => hplain q (by simp [hq])
      cases fuel with
      | zero => simp [mergeLoop] at hok
      | succ n =>
          cases n with
          | zero =>
              simp [mergeLoop, getObjectDefinitionImpl] at hok
          | succ m =>
              obtain ⟨dp, rfl⟩ : ∃ dp, p = Val.vDict dp := by
                cases p
                case vDict dp => exact ⟨dp, rfl⟩
                all_goals simp [isPlainPart] at hp
              simp only [mergeLoop, impl_plain_id H m hp, pyIn] at hok
              rcases plain_required_cases hp with ⟨hmem, hnil⟩ | hlist
              · rw [hmem] at hok
                rcases plain_properties_cases hp with ⟨hpm, hpnil⟩ | ⟨hpd, _⟩
                · rw [hpm] at hok
                  simp only [Bool.false_eq_true, if_neg (by simp : ¬False)] at hok
                  have := ih (m + 1) req props md hrest hok
                  simpa [hnil, hpnil, dsetAll] using this
                · have hpmem : dmem "properties" dp = true :=
                    dmem_of_dget_not_none (by rw [hpd]; intro hh; cases hh)
                  rw [hpmem] at hok
                  simp only [Bool.false_eq_true, if_neg (by simp : ¬False),
                    if_pos rfl, pyGetItem, hpmem, hpd] at hok
                  try simp only [if_pos rfl] at hok
                  have := ih (m + 1) req _ md hrest hok
                  simpa [hnil, hpd] using this
              · have hrmem : dmem "required" dp = true :=
                  dmem_of_dget_not_none (by rw [hlist]; intro hh; cases hh)
                rw [hrmem] at hok
                simp only [if_pos rfl, pyGetItem, hrmem, hlist, pyIterList] at hok
                try simp only [if_pos rfl] at hok
                rcases plain_properties_cases hp with ⟨hpm, hpnil⟩ | ⟨hpd, _⟩
                · rw [hpm] at hok
                  simp only [Bool.false_eq_true, if_neg (by simp : ¬False)] at hok
                  have := ih (m + 1) _ props md hrest hok
                  simpa [hpnil, dsetAll, List.append_assoc] using this
                · have hpmem : dmem "properties" dp = true :=
                    dmem_of_dget_not_none (by rw [hpd]; intro hh; cases hh)
                  rw [hpmem] at hok
                  simp only [if_pos rfl, pyGetItem, hpmem, hpd] at hok
                  try simp only [if_pos rfl] at hok
                  have := ih (m + 1) _ _ md hrest hok
                  simpa [hpd, List.append_assoc] using this

theorem plain_props_nodup {p : Val} (hp : isPlainPart p = true) :
    nodupKeys (propsOf p) = true := by
  cases p
  case vDict d =>
    rcases plain_properties_cases hp with ⟨_, hnil⟩ | ⟨_, hnd⟩
    · rw [hnil]
      rfl
    · exact hnd
  all_goals simp [isPlainPart] at hp

theorem dget_foldl_dsetAll (parts : List Val) (name : String) :
    ∀ acc : Dict,
    (∀ p ∈ parts, nodupKeys (propsOf p) = true) →
    dget (parts.foldl (fun acc p => dsetAll acc (propsOf p)) acc) name
      = parts.foldl
          (fun a p => if dmem name (propsOf p) then dget (propsOf p) name else a)
          (dget acc name) := by
  induction parts with
  | nil =>
      intro acc _
      rfl
  | cons p rest ih =>
      intro acc hnd
      simp only [List.foldl_cons]
      rw [ih (dsetAll acc (propsOf p)) (fun q hq => hnd q (by simp [hq])),
        dget_dsetAll (propsOf p) acc name (hnd p (by simp))]

/-- C5: a merged `allOf` composition's `required` list is the
concatenation of the (one-level dereferenced) parts' `required` lists in
declaration order with duplicates preserved — its length is the sum of
the parts' `required` lengths — and each property name maps to the
definition contributed by the last part in declaration order that
defines it (the final fold value). -/
theorem C5_allof_merge (H : SpecEnv) (fuel : Nat) (parts : List Val) (md : Val)
    (hplain : ∀ p ∈ parts, isPlainPart p = true)
    (hok : mergeAllParts H fuel parts = .ok md) :
    md = .vDict [("required", .vList (parts.flatMap reqNamesOf)),
                 ("properties",
                  .vDict (parts.foldl (fun acc p => dsetAll acc (propsOf p)) [])),
                 ("type", .vStr "object")]
    ∧ (parts.flatMap reqNamesOf).length
        = (parts.map (fun p => (reqNamesOf p).length)).sum
    ∧ ∀ name : String,
        dget (parts.foldl (fun acc p => dsetAll acc (propsOf p)) []) name
          = parts.foldl
              (fun a p => if dmem name (propsOf p) then dget (propsOf p) name else a)
              Val.vNone := by
  refine ⟨?_, ?_, ?_⟩
  · have := mergeLoop_spec H parts fuel [] [] md hplain hok
    simpa using this
  · rw [List.length_flatMap]
    rfl
  · intro name
    have := dget_foldl_dsetAll parts name []
      (fun p hp => plain_props_nodup (hplain p hp))
    simpa using this

/-- Witness for C5: merging the two concrete parts
`{'required': ['a'], 'properties': {'x': 1}}` and
`{'required': ['a', 'b'], 'properties': {'x': 2, 'y': 3}}`
concatenates `required` to `['a', 'a', 'b']` (duplicate preserved) and
lets the second part win the collision on property `'x'`. -/
theorem C5_allof_merge_witness :
    (Val.vDict [("required", Val.vList [.vStr "a", .vStr "a", .vStr "b"]),
                ("properties", Val.vDict [("x", .vInt 2), ("y", .vInt 3)]),
                ("type", .vStr "object")])
      = .vDict [("required", .vList
            ([Val.vDict [("required", Val.vList [.vStr "a"]),
                         ("properties", Val.vDict [("x", .vInt 1)])],
              Val.vDict [("required", Val.vList [.vStr "a", .vStr "b"]),
                         ("properties", Val.vDict [("x", .vInt 2), ("y", .vInt 3)])]].flatMap
              reqNamesOf)),
          ("properties",
           .vDict ([Val.vDict [("required", Val.vList [.vStr "a"]),
                               ("properties", Val.vDict [("x", .vInt 1)])],
                    Val.vDict [("required", Val.vList [.vStr "a", .vStr "b"]),
                               ("properties", Val.vDict [("x", .vInt 2), ("y", .vInt 3)])]].foldl
              (fun acc p => dsetAll acc (propsOf p)) [])),
          ("type", .vStr "object")]
    ∧ ([Val.vDict [("required", Val.vList [.vStr "a"]),
                   ("properties", Val.vDict [("x", .vInt 1)])],
        Val.vDict [("required", Val.vList [.vStr "a", .vStr "b"]),
                   ("properties", Val.vDict [("x", .vInt 2), ("y", .vInt 3)])]].flatMap
          reqNamesOf).length
        = ([Val.vDict [("required", Val.vList [.vStr "a"]),
                       ("properties", Val.vDict [("x", .vInt 1)])],
            Val.vDict [("required", Val.vList [.vStr "a", .vStr "b"]),
                       ("properties", Val.vDict [("x", .vInt 2), ("y", .vInt 3)])]].map
            (fun p => (reqNamesOf p).length)).sum
    ∧ ∀ name : String,
        dget ([Val.vDict [("required", Val.vList [.vStr "a"]),
                          ("properties", Val.vDict [("x", .vInt 1)])],
               Val.vDict [("required", Val.vList [.vStr "a", .vStr "b"]),
                          ("properties", Val.vDict [("x", .vInt 2), ("y", .vInt 3)])]].foldl
            (fun acc p => dsetAll acc (propsOf p)) []) name
          = [Val.vDict [("required", Val.vList [.vStr "a"]),
                        ("properties", Val.vDict [("x", .vInt 1)])],
             Val.vDict [("required", Val.vList [.vStr "a", .vStr "b"]),
                        ("properties", Val.vDict [("x", .vInt 2), ("y", .vInt 3)])]].foldl
              (fun a p => if dmem name (propsOf p) then dget (propsOf p) name else a)
              Val.vNone :=
  C5_allof_merge [] 10
    [Val.vDict [("required", Val.vList [.vStr "a"]),
                ("properties", Val.vDict [("x", .vInt 1)])],
     Val.vDict [("required", Val.vList [.vStr "a", .vStr "b"]),
                ("properties", Val.vDict [("x", .vInt 2), ("y", .vInt 3)])]]
    (.vDict [("required", Val.vList [.vStr "a", .vStr "a", .vStr "b"]),
             ("properties", Val.vDict [("x", .vInt 2), ("y", .vInt 3)]),
             ("type", .vStr "object")])
    (by
      intro p hp
      simp only [List.mem_cons, List.not_mem_nil, or_false] at hp
      rcases hp with rfl | rfl
      · rfl
      · rfl)
    rfl

/-!
Idempotence of the repair pipeline.
-/

theorem fixParam_idem (p : Parameter) : fixParam (fixParam p) = fixParam p := by
  by_cases hA : (valEqStr (dget p.param_spec "format") "string"
      && valEqStr (dget p.param_spec "type") "string") = true
  · have h1 : fixStringFormatParam p
        = { p with param_spec := ddel p.param_spec "format" } := by
      simp only [fixStringFormatParam]
      rw [if_pos hA]
    have hfmt : dget (ddel p.param_spec "format") "format" = Val.vNone :=
      dget_ddel_self _ _
    have h2 : fixStringWithInvalidFormatParam
          { p with param_spec := ddel p.param_spec "format" }
        = { p with param_spec := ddel p.param_spec "format" } := by
      simp [fixStringWithInvalidFormatParam, hfmt, valInStrList, valEqStr,
        invalid_formats]
    have h3 : fixBadDefaultForNumberTypeParam
          { p with param_spec := ddel p.param_spec "format" }
        = { p with param_spec := ddel p.param_spec "format" } := by
      simp [fixBadDefaultForNumberTypeParam, hfmt, valInStrList, valEqStr,
        fix_formats]
    have h1' : fixStringFormatParam
          { p with param_spec := ddel p.param_spec "format" }
        = { p with param_spec := ddel p.param_spec "format" } := by
      simp [fixStringFormatParam, hfmt, valEqStr]
    have hq : fixParam p = { p with param_spec := ddel p.param_spec "format" } := by
      unfold fixParam
      rw [h1, h2, h3]
    rw [hq]
    unfold fixParam
    rw [h1', h2, h3]
  · have h1 : fixStringFormatParam p = p := by
      simp only [fixStringFormatParam]
      rw [if_neg (by simpa using hA)]
    by_cases hB : (valInStrList (dget p.param_spec "format") invalid_formats
        && valEqStr (dget p.param_spec "type") "string") = true
    · have h2 : fixStringWithInvalidFormatParam p
          = { p with param_spec := ddel p.param_spec "format" } := by
        simp only [fixStringWithInvalidFormatParam]
        rw [if_pos hB]
      have hfmt : dget (ddel p.param_spec "format") "format" = Val.vNone :=
        dget_ddel_self _ _
      have h3 : fixBadDefaultForNumberTypeParam
            { p with param_spec := ddel p.param_spec "format" }
          = { p with param_spec := ddel p.param_spec "format" } := by
        simp [fixBadDefaultForNumberTypeParam, hfmt, valInStrList, valEqStr,
          fix_formats]
      have h1' : fixStringFormatParam
            { p with param_spec := ddel p.param_spec "format" }
          = { p with param_spec := ddel p.param_spec "format" } := by
        simp [fixStringFormatParam, hfmt, valEqStr]
      have h2' : fixStringWithInvalidFormatParam
            { p with param_spec := ddel p.param_spec "format" }
          = { p with param_spec := ddel p.param_spec "format" } := by
        simp [fixStringWithInvalidFormatParam, hfmt, valInStrList, valEqStr,
          invalid_formats]
      have hq : fixParam p = { p with param_spec := ddel p.param_spec "format" } := by
        unfold fixParam
        rw [h1, h2, h3]
      rw [hq]
      unfold fixParam
      rw [h1', h2', h3]
    · have h2 : fixStringWithInvalidFormatParam p = p := by
        simp only [fixStringWithInvalidFormatParam]
        rw [if_neg (by simpa using hB)]
      by_cases hC : valInStrList (dget p.param_spec "format") fix_formats = true
      · cases hdv : dget p.param_spec "default"
        all_goals try
          (have h3 : fixBadDefaultForNumberTypeParam p = p := by
             simp [fixBadDefaultForNumberTypeParam, hC, hdv]
           have hq : fixParam p = p := by
             unfold fixParam
             rw [h1, h2, h3]
           rw [hq]
           exact hq)
        rename_i s
        ·
          by_cases hdig : pyIsDigit s = true
          · have h3 : fixBadDefaultForNumberTypeParam p = p := by
              simp [fixBadDefaultForNumberTypeParam, hC, hdv, hdig]
            have hq : fixParam p = p := by
              unfold fixParam
              rw [h1, h2, h3]
            rw [hq]
            exact hq
          · have hdig' : pyIsDigit s = false := by simpa using hdig
            have h3 : fixBadDefaultForNumberTypeParam p
                = { p with param_spec := dset p.param_spec "default" (.vInt 0) } := by
              simp [fixBadDefaultForNumberTypeParam, hC, hdv, hdig']
            have hq : fixParam p
                = { p with param_spec := dset p.param_spec "default" (.vInt 0) } := by
              unfold fixParam
              rw [h1, h2, h3]
            have hfmt2 : dget (dset p.param_spec "default" (.vInt 0)) "format"
                = dget p.param_spec "format" :=
              dget_dset_ne _ _ (by decide)
            have htype2 : dget (dset p.param_spec "default" (.vInt 0)) "type"
                = dget p.param_spec "type" :=
              dget_dset_ne _ _ (by decide)
            have hdef2 : dget (dset p.param_spec "default" (.vInt 0)) "default"
                = .vInt 0 :=
              dget_dset_self _ _ _
            have h1' : fixStringFormatParam
                  { p with param_spec := dset p.param_spec "default" (.vInt 0) }
                = { p with param_spec := dset p.param_spec "default" (.vInt 0) } := by
              simp only [fixStringFormatParam, hfmt2, htype2]
              rw [if_neg (by simpa using hA)]
            have h2' : fixStringWithInvalidFormatParam
                  { p with param_spec := dset p.param_spec "default" (.vInt 0) }
                = { p with param_spec := dset p.param_spec "default" (.vInt 0) } := by
              simp only [fixStringWithInvalidFormatParam, hfmt2, htype2]
              rw [if_neg (by simpa using hB)]
            have h3' : fixBadDefaultForNumberTypeParam
                  { p with param_spec := dset p.param_spec "default" (.vInt 0) }
                = { p with param_spec := dset p.param_spec "default" (.vInt 0) } := by
              simp [fixBadDefaultForNumberTypeParam, hfmt2, hdef2, hC]
            rw [hq]
            unfold fixParam
            rw [h1', h2', h3']
      · have hC' : valInStrList (dget p.param_spec "format") fix_formats = false := by
          simpa using hC
        have h3 : fixBadDefaultForNumberTypeParam p = p := by
          simp [fixBadDefaultForNumberTypeParam, hC']
        have hq : fixParam p = p := by
          unfold fixParam
          rw [h1, h2, h3]
        rw [hq]
        exact hq

theorem fixStringFormatParam_fill (p : Parameter) :
    (fixStringFormatParam p).fill = p.fill := by
  simp only [fixStringFormatParam]
  split <;> rfl

theorem fixStringWithInvalidFormatParam_fill (p : Parameter) :
    (fixStringWithInvalidFormatParam p).fill = p.fill := by
  simp only [fixStringWithInvalidFormatParam]
  split <;> rfl

theorem fixBadDefaultForNumberTypeParam_fill (p : Parameter) :
    (fixBadDefaultForNumberTypeParam p).fill = p.fill := by
  simp only [fixBadDefaultForNumberTypeParam]
  split
  · rfl
  · split
    · split <;> rfl
    · rfl

theorem fixParam_fill (p : Parameter) : (fixParam p).fill = p.fill := by
  unfold fixParam
  rw [fixBadDefaultForNumberTypeParam_fill, fixStringWithInvalidFormatParam_fill,
    fixStringFormatParam_fill]

theorem fixCommonSpecIssues_idem (op : Operation) :
    fixCommonSpecIssues (fixCommonSpecIssues op) = fixCommonSpecIssues op := by
  rw [fixCommonSpecIssues_eq_map op, fixCommonSpecIssues_eq_map]
  congr 1
  show (op.params.map (fun np => (np.1, fixParam np.2))).map
        (fun np => (np.1, fixParam np.2))
      = op.params.map (fun np => (np.1, fixParam np.2))
  induction op.params with
  | nil => rfl
  | cons np rest ih => simp [fixParam_idem, ih]

/-- C1 (amended): the fill-value writes of `set_operation_params` affect
only the deep copy that is returned, but the repair passes run on
`self.operation` before the copy is taken: after a call the
caller-supplied operation is exactly the repaired original (its fill
slots untouched), not the unmodified original.  Because the repair is
idempotent, repeated calls on the same operation see identical
(already-repaired) schemas from the second call on. -/
theorem C1_repair_mutates_original_fill_only_copy
    (H : SpecEnv) (fuel : Nat) (op : Operation) (optional : Bool)
    (pr : Operation × Operation)
    (hok : set_operation_params H fuel op optional = .ok pr) :
    pr.1 = fixCommonSpecIssues op
    ∧ fixCommonSpecIssues pr.1 = pr.1
    ∧ pr.1.params.map (fun np => np.2.fill)
        = op.params.map (fun np => np.2.fill) := by
  simp only [set_operation_params] at hok
  split at hok
  · exact absurd hok (by simp)
  · injection hok with h
    subst h
    refine ⟨rfl, fixCommonSpecIssues_idem op, ?_⟩
    rw [fixCommonSpecIssues_eq_map]
    show (op.params.map (fun np => (np.1, fixParam np.2))).map
          (fun np => np.2.fill)
        = op.params.map (fun np => np.2.fill)
    induction op.params with
    | nil => rfl
    | cons np rest ih => simp [fixParam_fill, ih]

/-- Witness for C1 (amended) at a one-parameter operation whose
parameter has a static default: the call succeeds and the conclusion is
instantiated on the returned pair. -/
theorem C1_repair_mutates_original_fill_only_copy_witness :
    (Operation.mk [("p", Parameter.mk "p" true (Val.vInt 7)
        [("type", .vStr "boolean")] Val.vNone)]
      = fixCommonSpecIssues (Operation.mk [("p", Parameter.mk "p" true (Val.vInt 7)
          [("type", .vStr "boolean")] Val.vNone)]))
    ∧ fixCommonSpecIssues (Operation.mk [("p", Parameter.mk "p" true (Val.vInt 7)
          [("type", .vStr "boolean")] Val.vNone)])
        = Operation.mk [("p", Parameter.mk "p" true (Val.vInt 7)
            [("type", .vStr "boolean")] Val.vNone)]
    ∧ (Operation.mk [("p", Parameter.mk "p" true (Val.vInt 7)
          [("type", .vStr "boolean")] Val.vNone)]).params.map (fun np => np.2.fill)
        = (Operation.mk [("p", Parameter.mk "p" true (Val.vInt 7)
            [("type", .vStr "boolean")] Val.vNone)]).params.map (fun np => np.2.fill) :=
  C1_repair_mutates_original_fill_only_copy [] 3
    (Operation.mk [("p", Parameter.mk "p" true (Val.vInt 7)
        [("type", .vStr "boolean")] Val.vNone)])
    false
    (Operation.mk [("p", Parameter.mk "p" true (Val.vInt 7)
        [("type", .vStr "boolean")] Val.vNone)],
     Operation.mk [("p", Parameter.mk "p" true (Val.vInt 7)
        [("type", .vStr "boolean")] (Val.vInt 7))])
    rfl

/-- Counterexample for C1 as stated: calling `set_operation_params` on
an operation whose parameter carries `type: 'string', format: 'string'`
deletes `format` from the caller-supplied operation itself (the repair
passes run before the deep copy is taken), so the original's parameter
schemas are not left unmodified. -/
theorem C1_repair_mutates_original_cex :
    ((set_operation_params [] 5 (Operation.mk [("s", Parameter.mk "s" true Val.vNone
          [("type", .vStr "string"), ("format", .vStr "string")] Val.vNone)])
        false).toOption.map
      (fun pr => pr.1.params.map (fun np => dmem "format" np.2.param_spec)))
      = some [false]
    ∧ (Operation.mk [("s", Parameter.mk "s" true Val.vNone
          [("type", .vStr "string"), ("format", .vStr "string")] Val.vNone)]).params.map
        (fun np => dmem "format" np.2.param_spec) = [true] :=
  ⟨rfl, rfl⟩
